import Mathlib

/-!
Verification development for the beggar S3 gateway.

This file gives a shallow embedding of the core of the gateway:
the path resolver (src/utils.rs, resolve_abs_path via absolutize_virtually),
the atomic file writer (src/storage_backend.rs, FileWriter),
the checksum catalog serialization (src/checksum.rs),
the datastore operations (src/datastore.rs, modelled as pure maps over
an explicit state), and the S3 operations put_object, upload_part,
list_parts, complete_multipart_upload and abort_multipart_upload
(src/s3.rs), each translated statement by statement from the source.

Bytes are modelled as lists of naturals, filesystem paths as lists of
path components.  The filesystem (regular files and directories), the
three catalog tables and the temp-file counter form one explicit state
record that every operation threads through, returning the final state
together with the S3 result, so that the state reached on an early
error return is visible to the theorems.

External collaborators (the md5 crate, the s3s checksum hashers and
Uuid::parse_str) are digest functions whose internals are out of scope;
they are abstracted as parameters collected in `HashCfg`, so every
theorem holds for every choice of digest function.
-/

deriving instance DecidableEq for Except

/-- Machine bytes; the numeric values are irrelevant to the claims. -/
abbrev Bytes := List Nat

/-- An absolute filesystem path below the configured root, as the list
of its components (the root itself is the empty list). -/
abbrev FsPath := List String

/-- The S3 error codes produced by the operations under study
(src/s3.rs, src/storage_backend.rs via the s3_error macro; crate-level
errors surface as InternalError through From for S3Error in
src/error.rs). -/
inductive S3Err where
  | IncompleteBody
  | BadDigest
  | UnexpectedContent
  | InvalidRequest
  | InvalidPart
  | AccessDenied
  | NoSuchUpload
  | NoSuchBucket
  | NoSuchKey
  | InternalError
deriving DecidableEq

/-- Split a character list at every slash character, keeping empty
segments (so a double slash or a trailing slash yields an empty
component, as Rust path component parsing sees them before they are
normalized away). -/
def splitSlash : List Char → List (List Char)
  | [] => [[]]
  | c :: t =>
    let r := splitSlash t
    if c = '/' then [] :: r
    else
      match r with
      | [] => [[c]]
      | h :: t2 => (c :: h) :: t2

/-- The components of a path string. -/
def comps (s : String) : List String := (splitSlash s.data).map (fun cs => String.mk cs)

/-- `str.ends_with('/')` from the source, computed on the character list
so that it reduces in the kernel. -/
def strEndsWithSlash (s : String) : Bool :=
  match s.data.getLast? with
  | some c => c = '/'
  | none => false

/-- `Path::is_absolute`: the path string starts with a slash. -/
def strStartsWithSlash (s : String) : Bool :=
  match s.data with
  | c :: _ => c = '/'
  | [] => false

/-- Normalization loop of `path_absolutize::Absolutize::absolutize_virtually`
relative to the virtual root: empty components and `.` are dropped,
`..` pops one component and fails when it would climb above the root,
anything else is pushed. -/
def normalizeComps : List String → FsPath → Option FsPath
  | [], acc => some acc
  | c :: t, acc =>
    if c = "" ∨ c = "." then normalizeComps t acc
    else if c = ".." then
      match acc with
      | [] => none
      | _ => normalizeComps t acc.dropLast
    else normalizeComps t (acc ++ [c])

/-- `utils::resolve_abs_path(root, path)`.  The root is modelled as the
empty component stack; a relative path is normalized against it and an
absolute input path is rejected, since for a generic root directory an
absolute path does not lie below the virtual root. -/
def resolve_abs_path (p : String) : Option FsPath :=
  if strStartsWithSlash p then none
  else normalizeComps (comps p) []

/-- `StorageBackend::get_object_path`: `Path::new(bucket).join(key)`
resolved under the root.  `join` discards the bucket when the key is
absolute, and an absolute path is rejected by the resolver. -/
def get_object_path (bucket key : String) : Option FsPath :=
  if strStartsWithSlash key then none
  else resolve_abs_path (bucket ++ "/" ++ key)

/-- `StorageBackend::get_bucket_path`. -/
def get_bucket_path (bucket : String) : Option FsPath :=
  resolve_abs_path bucket

/-- `StorageBackend::resolve_upload_part_path`. -/
def resolve_upload_part_path (upload_id : String) (part_number : Int) : Option FsPath :=
  resolve_abs_path (".upload_id-" ++ upload_id ++ ".part-" ++ toString part_number)

/-- The stage-file name `.tmp.{counter}.internal.part` used by
`StorageBackend::prepare_file_write`. -/
def tmpName (n : Nat) : String := ".tmp." ++ toString n ++ ".internal.part"

/-- Lookup in the map of regular files. -/
def getFile : List (FsPath × Bytes) → FsPath → Option Bytes
  | [], _ => none
  | (q, b) :: t, p => if q = p then some b else getFile t p

/-- Drop every entry recorded under a path. -/
def dropKey : List (FsPath × Bytes) → FsPath → List (FsPath × Bytes)
  | [], _ => []
  | (q, b) :: t, p => if q = p then dropKey t p else (q, b) :: dropKey t p

/-- Create or truncate a regular file. -/
def putFile (fs : List (FsPath × Bytes)) (p : FsPath) (b : Bytes) : List (FsPath × Bytes) :=
  (p, b) :: dropKey fs p

/-- `fs::remove_file`. -/
def delFile (fs : List (FsPath × Bytes)) (p : FsPath) : List (FsPath × Bytes) :=
  dropKey fs p

/-- The checksum struct of the s3s dto consumed and produced by the
gateway (only the four algorithms the source handles). -/
structure Checksum where
  checksum_crc32 : Option String
  checksum_crc32c : Option String
  checksum_sha1 : Option String
  checksum_sha256 : Option String
deriving DecidableEq

/-- `internal_info`: the JSON object stored in the catalog row, as a
finite map from key to string value (the source serializes it with
serde_json; the JSON encoding itself is injective and irrelevant to the
claims, so the map is stored directly). -/
abbrev InternalInfo := List (String × String)

/-- `serde_json::Map::insert` (insert or replace by key). -/
def info_insert (info : InternalInfo) (k v : String) : InternalInfo :=
  (k, v) :: info.filter (fun e => decide (e.1 ≠ k))

/-- `serde_json::Map::get`. -/
def info_get : InternalInfo → String → Option String
  | [], _ => none
  | (k, v) :: t, q => if k = q then some v else info_get t q

/-- `checksum::modify_internal_info` (src/checksum.rs): insert each
present checksum field under its algorithm key. -/
def modify_internal_info (info : InternalInfo) (checksum : Checksum) : InternalInfo :=
  let i1 :=
    match checksum.checksum_crc32 with
    | some v => info_insert info "checksum_crc32" v
    | none => info
  let i2 :=
    match checksum.checksum_crc32c with
    | some v => info_insert i1 "checksum_crc32c" v
    | none => i1
  let i3 :=
    match checksum.checksum_sha1 with
    | some v => info_insert i2 "checksum_sha1" v
    | none => i2
  match checksum.checksum_sha256 with
  | some v => info_insert i3 "checksum_sha256" v
  | none => i3

/-- `checksum::from_internal_info` (src/checksum.rs): read each
algorithm key back into the checksum struct. -/
def from_internal_info (info : InternalInfo) : Checksum :=
  { checksum_crc32 := info_get info "checksum_crc32"
    checksum_crc32c := info_get info "checksum_crc32c"
    checksum_sha1 := info_get info "checksum_sha1"
    checksum_sha256 := info_get info "checksum_sha256" }

/-- The digest functions of the external crates, abstracted: `md5hex`
models the lowercase hex MD5 digest (utils::hex of Md5::digest), the
next four model the s3s checksum hashers, and `parse_uuid` models
`Uuid::parse_str(s).map(|u| u.to_string())`. -/
structure HashCfg where
  md5hex : Bytes → String
  crc32 : Bytes → String
  crc32c : Bytes → String
  sha1 : Bytes → String
  sha256 : Bytes → String
  parse_uuid : String → Option String

/-- `s3s::checksum::ChecksumHasher`: which channels are enabled. -/
structure ChecksumHasher where
  crc32 : Bool
  crc32c : Bool
  sha1 : Bool
  sha256 : Bool
deriving DecidableEq

/-- `StorageBackend::init_checksum_hasher`: a channel is enabled iff the
corresponding client-supplied checksum is present. -/
def init_checksum_hasher (crc32 crc32c sha1 sha256 : Option String) : ChecksumHasher :=
  { crc32 := crc32.isSome, crc32c := crc32c.isSome
    sha1 := sha1.isSome, sha256 := sha256.isSome }

/-- `ChecksumHasher::finalize` after the whole body was streamed through
`update`: each enabled channel yields its digest of the body. -/
def ChecksumHasher.finalize (h : ChecksumHasher) (cfg : HashCfg) (body : Bytes) : Checksum :=
  { checksum_crc32 := if h.crc32 then some (cfg.crc32 body) else none
    checksum_crc32c := if h.crc32c then some (cfg.crc32c body) else none
    checksum_sha1 := if h.sha1 then some (cfg.sha1 body) else none
    checksum_sha256 := if h.sha256 then some (cfg.sha256 body) else none }

/-- `StorageBackend::validate_checksums`: field-by-field equality of the
computed and the client-supplied checksums, `None == None` passing. -/
def validate_checksums (checksum : Checksum) (crc32 crc32c sha1 sha256 : Option String) :
    Except S3Err Unit :=
  if checksum.checksum_crc32 ≠ crc32 then .error .BadDigest
  else if checksum.checksum_crc32c ≠ crc32c then .error .BadDigest
  else if checksum.checksum_sha1 ≠ sha1 then .error .BadDigest
  else if checksum.checksum_sha256 ≠ sha256 then .error .BadDigest
  else .ok ()

/-- User metadata; the source carries it as a JSON-serialized string,
whose encoding is irrelevant to the claims. -/
abbrev Meta := List (String × String)

/-- A row of the s3_item_detail table (src/s3_item_detail.rs);
last_modified is wall-clock time and is not modelled. -/
structure S3ItemDetail where
  bucket : String
  key : String
  e_tag : String
  data_location : String
  metadata : Option Meta
  internal_info : InternalInfo
deriving DecidableEq

/-- A row of the multipart_upload table (src/multipart_upload.rs);
last_modified is not modelled. -/
structure MultipartUpload where
  upload_id : String
  bucket : String
  key : String
  metadata : Meta
  access_key : String
deriving DecidableEq

/-- A row of the multipart_upload_part table
(src/multipart_upload_part.rs); the data_location column stores an
absolute path. -/
structure MultipartUploadPart where
  upload_id : String
  part_number : Int
  md5 : String
  data_location : FsPath
deriving DecidableEq

/-- Ordering of part rows by part_number, as in the ORDER BY clause of
`get_parts_by_upload_id` (src/datastore.rs). -/
def partLe (a b : MultipartUploadPart) : Prop := a.part_number ≤ b.part_number

instance : DecidableRel partLe := fun a b => Int.decLe a.part_number b.part_number

instance : IsTotal MultipartUploadPart partLe := ⟨fun a b => Int.le_total a.part_number b.part_number⟩

instance : IsTrans MultipartUploadPart partLe := ⟨fun _ _ _ h h2 => le_trans h h2⟩

/-- The whole mutable world: the filesystem below the root (regular
files and directories), the three catalog tables and the temp-file
counter of the storage backend. -/
structure S3State where
  files : List (FsPath × Bytes)
  dirs : List FsPath
  objects : List S3ItemDetail
  uploads : List MultipartUpload
  parts : List MultipartUploadPart
  tmpCounter : Nat
deriving DecidableEq

/-- `path.is_dir()`. -/
def isDir (st : S3State) (p : FsPath) : Bool := st.dirs.contains p

/-- A regular file exists at the path. -/
def fileExists (st : S3State) (p : FsPath) : Bool := (getFile st.files p).isSome

/-- `path.exists()`. -/
def pathExists (st : S3State) (p : FsPath) : Bool := isDir st p || fileExists st p

/-- All nonempty initial segments of a path: the chain of directories
that `fs::create_dir_all` brings into existence. -/
def initSegs (p : FsPath) : List FsPath := (List.range p.length).map (fun i => p.take (i + 1))

/-- Add the directory chain of a path to the set of directories. -/
def addDirs (p : FsPath) (dirs : List FsPath) : List FsPath :=
  (initSegs p).filter (fun d => decide (d ∉ dirs)) ++ dirs

/-- `fs::create_dir_all` (recursive, idempotent). -/
def createDirAll (st : S3State) (p : FsPath) : S3State := { st with dirs := addDirs p st.dirs }

/-- `fs::rename(src, dst)` of a regular file (atomic replace of dst). -/
def renameFile (st : S3State) (src dst : FsPath) : S3State :=
  match getFile st.files src with
  | some c => { st with files := putFile (delFile st.files src) dst c }
  | none => st

/-- `fs::remove_file` lifted to the state. -/
def removeFile (st : S3State) (p : FsPath) : S3State := { st with files := delFile st.files p }

/-- Append bytes to a regular file (the buffered writer of the temp
file, observed after flush). -/
def appendToFile (st : S3State) (p : FsPath) (bs : Bytes) : S3State :=
  { st with files := putFile st.files p ((getFile st.files p).getD [] ++ bs) }

/-- `DataStore::save_s3_item_detail` together with the row construction
in `StorageBackend::save_s3_item_detail`: insert or replace by
(bucket, key), with data_location set to bucket/key. -/
def save_s3_item_detail (st : S3State) (bucket key e_tag : String) (metadata : Option Meta)
    (internal_info : InternalInfo) : S3State :=
  { st with objects :=
      { bucket := bucket, key := key, e_tag := e_tag
        data_location := bucket ++ "/" ++ key
        metadata := metadata, internal_info := internal_info } ::
        st.objects.filter (fun o => decide (¬(o.bucket = bucket ∧ o.key = key))) }

/-- `DataStore::get_s3_item_detail`. -/
def get_s3_item_detail (st : S3State) (bucket key : String) : Option S3ItemDetail :=
  st.objects.find? (fun o => o.bucket == bucket && o.key == key)

/-- `DataStore::get_multipart_upload_by_upload_id`. -/
def get_multipart_upload_by_upload_id (st : S3State) (upload_id : String) :
    Option MultipartUpload :=
  st.uploads.find? (fun u => u.upload_id == upload_id)

/-- `DataStore::get_access_key_by_upload_id`: the single-column
projection of the same row. -/
def get_access_key_by_upload_id (st : S3State) (upload_id : String) : Option String :=
  (get_multipart_upload_by_upload_id st upload_id).map (fun u => u.access_key)

/-- `DataStore::save_multipart_upload_part` together with the row
construction in the backend: insert or replace by
(upload_id, part_number). -/
def save_multipart_upload_part (st : S3State) (upload_id : String) (part_number : Int)
    (md5 : String) (data_location : FsPath) : S3State :=
  { st with parts :=
      { upload_id := upload_id, part_number := part_number
        md5 := md5, data_location := data_location } ::
        st.parts.filter (fun q => decide (¬(q.upload_id = upload_id ∧ q.part_number = part_number))) }

/-- `DataStore::get_parts_by_upload_id`: all part rows of the upload,
ordered by part_number ascending. -/
def get_parts_by_upload_id (st : S3State) (upload_id : String) : List MultipartUploadPart :=
  List.insertionSort partLe (st.parts.filter (fun q => q.upload_id == upload_id))

/-- `DataStore::delete_multipart_upload_by_upload_id`: the SQL deletes
from multipart_upload only; part rows are not touched by it. -/
def delete_multipart_upload_by_upload_id (st : S3State) (upload_id : String) : S3State :=
  { st with uploads := st.uploads.filter (fun u => decide (u.upload_id ≠ upload_id)) }

/-- The access key of the request credentials;
`cred.map(|c| c.access_key).unwrap_or_default()` maps missing
credentials to the empty string. -/
def acc_of (cred : Option String) : String := cred.getD ""

/-- `StorageBackend::verify_access_key_by_upload_id`: true iff a row for
the upload exists and its recorded access key equals the request access
key (missing credentials count as the empty string). -/
def verify_access_key_by_upload_id (st : S3State) (cred : Option String) (upload_id : String) :
    Bool :=
  match get_access_key_by_upload_id st upload_id with
  | some ak => ak == acc_of cred
  | none => false

/-- The atomic file writer (src/storage_backend.rs, FileWriter): the
temp path it writes to, the destination it will rename to, and the
clean_tmp flag consulted by Drop. -/
structure FileWriter where
  tmp_path : FsPath
  dest_path : FsPath
  clean_tmp : Bool
deriving DecidableEq

/-- `StorageBackend::prepare_file_write`: create the stage file
`.tmp.{counter}.internal.part` at the root (the single-component name
always resolves below the root) and bump the counter. -/
def prepare_file_write (st : S3State) (path : FsPath) : S3State × FileWriter :=
  let tmp : FsPath := [tmpName st.tmpCounter]
  ({ st with files := putFile st.files tmp [], tmpCounter := st.tmpCounter + 1 },
   { tmp_path := tmp, dest_path := path, clean_tmp := true })

/-- Stream bytes into the writer (utils::copy_bytes into the buffered
temp-file writer, observed after flush). -/
def FileWriter.write (fw : FileWriter) (st : S3State) (bs : Bytes) : S3State :=
  appendToFile st fw.tmp_path bs

/-- `FileWriter::done`: create the destination parent directories, then
rename the temp file over the destination unless the destination is a
directory, and clear clean_tmp. -/
def FileWriter.done (fw : FileWriter) (st : S3State) : S3State × FileWriter :=
  let st1 := createDirAll st fw.dest_path.dropLast
  let st2 := if isDir st1 fw.dest_path then st1 else renameFile st1 fw.tmp_path fw.dest_path
  (st2, { fw with clean_tmp := false })

/-- `Drop for FileWriter`: remove the temp file iff clean_tmp is set. -/
def FileWriter.drop (fw : FileWriter) (st : S3State) : S3State :=
  if fw.clean_tmp then removeFile st fw.tmp_path else st

/-- `StorageBackend::get_md5_sum`: re-read the object file and digest
it; opening a missing file (or failing to read a directory) is an
error, surfaced as InternalError by the crate error conversion. -/
def get_md5_sum (cfg : HashCfg) (st : S3State) (bucket key : String) : Except S3Err String :=
  match get_object_path bucket key with
  | none => .error .InternalError
  | some p =>
    match getFile st.files p with
    | none => .error .InternalError
    | some c => .ok (cfg.md5hex c)

/-- `content_length.map(|len| len > 0).unwrap_or(false)`. -/
def clPositive : Option Int → Bool
  | some l => decide (0 < l)
  | none => false

/-- `StorageBackend::handle_directory_creation`: a positive
content-length is UnexpectedContent, otherwise the object path is
created as a directory recursively. -/
def handle_directory_creation (st : S3State) (content_length : Option Int) (bucket key : String) :
    Except S3Err S3State :=
  if clPositive content_length then .error .UnexpectedContent
  else
    match get_object_path bucket key with
    | none => .error .InternalError
    | some p => .ok (createDirAll st p)

/-- The fields of PutObjectInput consumed by the adapter. -/
structure PutObjectInput where
  bucket : String
  key : String
  body : Option Bytes
  metadata : Option Meta
  content_length : Option Int
  checksum_crc32 : Option String
  checksum_crc32c : Option String
  checksum_sha1 : Option String
  checksum_sha256 : Option String
deriving DecidableEq

/-- The fields of PutObjectOutput produced by the adapter. -/
structure PutObjectOutput where
  e_tag : Option String
  checksum_crc32 : Option String
  checksum_crc32c : Option String
  checksum_sha1 : Option String
  checksum_sha256 : Option String
deriving DecidableEq

/-- `S3::put_object` (src/s3.rs), step for step: require a body; build
the checksum hasher; on a key ending in a slash run the directory
branch; resolve the object path; open the atomic writer; stream the
body into temp file and hashers; commit the writer (rename before any
checksum validation, as in the source); validate checksums; write the
catalog row; return ETag and echoed checksums.  Every early error
return drops the writer, which removes the temp file iff clean_tmp is
still set. -/
def put_object (cfg : HashCfg) (st : S3State) (input : PutObjectInput) :
    S3State × Except S3Err PutObjectOutput :=
  match input.body with
  | none => (st, .error .IncompleteBody)
  | some body =>
    let hasher := init_checksum_hasher input.checksum_crc32 input.checksum_crc32c
      input.checksum_sha1 input.checksum_sha256
    let dirStep : Except S3Err S3State :=
      if strEndsWithSlash input.key then
        handle_directory_creation st input.content_length input.bucket input.key
      else .ok st
    match dirStep with
    | .error e => (st, .error e)
    | .ok st1 =>
      match get_object_path input.bucket input.key with
      | none => (st1, .error .InternalError)
      | some object_path =>
        let pfw := prepare_file_write st1 object_path
        let fw := pfw.2
        let st2 := fw.write pfw.1 body
        let dres := fw.done st2
        let st3 := dres.1
        let fw1 := dres.2
        let md5_sum := cfg.md5hex body
        let checksum := hasher.finalize cfg body
        match validate_checksums checksum input.checksum_crc32 input.checksum_crc32c
          input.checksum_sha1 input.checksum_sha256 with
        | .error e => (fw1.drop st3, .error e)
        | .ok _ =>
          let info := modify_internal_info [] checksum
          let st4 := save_s3_item_detail st3 input.bucket input.key md5_sum input.metadata info
          (fw1.drop st4,
           .ok { e_tag := some md5_sum
                 checksum_crc32 := checksum.checksum_crc32
                 checksum_crc32c := checksum.checksum_crc32c
                 checksum_sha1 := checksum.checksum_sha1
                 checksum_sha256 := checksum.checksum_sha256 })

/-- The fields of UploadPartInput consumed by the adapter. -/
structure UploadPartInput where
  body : Option Bytes
  upload_id : String
  part_number : Int
deriving DecidableEq

/-- The fields of UploadPartOutput produced by the adapter. -/
structure UploadPartOutput where
  e_tag : Option String
deriving DecidableEq

/-- `S3::upload_part` (src/s3.rs): require a body; parse the upload id
as a UUID; verify the access key against the upload row; resolve the
part path; stream the body through the atomic writer; commit; upsert
the part row. -/
def upload_part (cfg : HashCfg) (st : S3State) (input : UploadPartInput) (cred : Option String) :
    S3State × Except S3Err UploadPartOutput :=
  match input.body with
  | none => (st, .error .IncompleteBody)
  | some body =>
    match cfg.parse_uuid input.upload_id with
    | none => (st, .error .InvalidRequest)
    | some upload_id =>
      if verify_access_key_by_upload_id st cred upload_id = false then
        (st, .error .AccessDenied)
      else
        match resolve_upload_part_path upload_id input.part_number with
        | none => (st, .error .InternalError)
        | some file_path =>
          let pfw := prepare_file_write st file_path
          let fw := pfw.2
          let st2 := fw.write pfw.1 body
          let dres := fw.done st2
          let md5_sum := cfg.md5hex body
          let st3 := save_multipart_upload_part dres.1 upload_id input.part_number md5_sum
            file_path
          (dres.2.drop st3, .ok { e_tag := some md5_sum })

/-- One entry of the parts list of ListPartsOutput (last_modified not
modelled). -/
structure PartItem where
  part_number : Option Int
  size : Option Int
  e_tag : Option String
deriving DecidableEq

/-- The fields of ListPartsInput consumed by the adapter. -/
structure ListPartsInput where
  bucket : String
  key : String
  upload_id : String
deriving DecidableEq

/-- The fields of ListPartsOutput produced by the adapter. -/
structure ListPartsOutput where
  bucket : Option String
  key : Option String
  upload_id : Option String
  parts : Option (List PartItem)
deriving DecidableEq

/-- The loop of `S3::list_parts`: open every part file to report its
size; an unopenable part file is NoSuchUpload. -/
def buildPartItems (st : S3State) : List MultipartUploadPart → Option (List PartItem)
  | [] => some []
  | p :: t =>
    match getFile st.files p.data_location with
    | none => none
    | some c =>
      (buildPartItems st t).map
        (fun r =>
          { part_number := some p.part_number, size := some (Int.ofNat c.length)
            e_tag := some p.md5 } :: r)

/-- `S3::list_parts` (src/s3.rs): fetch the part rows; an empty result
is NoSuchUpload; otherwise report each part with its file size. -/
def list_parts (st : S3State) (input : ListPartsInput) : S3State × Except S3Err ListPartsOutput :=
  let parts_in_db := get_parts_by_upload_id st input.upload_id
  if parts_in_db.length = 0 then (st, .error .NoSuchUpload)
  else
    match buildPartItems st parts_in_db with
    | none => (st, .error .NoSuchUpload)
    | some items =>
      (st, .ok { bucket := some input.bucket, key := some input.key
                 upload_id := some input.upload_id, parts := some items })

/-- One entry of the request parts list of CompleteMultipartUpload; the
source never reads its fields. -/
structure CompletedPart where
  e_tag : Option String
  part_number : Option Int
deriving DecidableEq

/-- The multipart_upload field of CompleteMultipartUploadInput. -/
structure CompletedMultipartUpload where
  parts : Option (List CompletedPart)
deriving DecidableEq

/-- The fields of CompleteMultipartUploadInput consumed by the adapter
(bucket and key are present on the wire but unused by the source). -/
structure CompleteMultipartUploadInput where
  multipart_upload : Option CompletedMultipartUpload
  upload_id : String
deriving DecidableEq

/-- The fields of CompleteMultipartUploadOutput produced by the
adapter. -/
structure CompleteMultipartUploadOutput where
  bucket : Option String
  key : Option String
  e_tag : Option String
deriving DecidableEq

/-- The part-concatenation loop of `S3::complete_multipart_upload`:
open each part file, append its bytes to the temp file of the writer,
and remove the part file; a missing part file aborts the loop with the
error of the try macro. -/
def appendParts (tmp : FsPath) : S3State → List MultipartUploadPart → S3State × Option S3Err
  | st, [] => (st, none)
  | st, p :: t =>
    match getFile st.files p.data_location with
    | none => (st, some .InternalError)
    | some c =>
      let st1 := appendToFile st tmp c
      let st2 := removeFile st1 p.data_location
      appendParts tmp st2 t

/-- `S3::complete_multipart_upload` (src/s3.rs): require the
multipart_upload field; parse the upload id; fetch the upload row (else
NoSuchUpload); verify the access key; open the atomic writer at the
final object path; concatenate the catalog parts in ascending
part_number, deleting each part file; commit the writer; stat the
object path; recompute the MD5 by re-reading the final file; write the
object row (internal_info empty); delete the upload row. -/
def complete_multipart_upload (cfg : HashCfg) (st : S3State)
    (input : CompleteMultipartUploadInput) (cred : Option String) :
    S3State × Except S3Err CompleteMultipartUploadOutput :=
  match input.multipart_upload with
  | none => (st, .error .InvalidPart)
  | some _mu =>
    match cfg.parse_uuid input.upload_id with
    | none => (st, .error .InvalidRequest)
    | some upload_id =>
      match get_multipart_upload_by_upload_id st upload_id with
      | none => (st, .error .NoSuchUpload)
      | some m =>
        if verify_access_key_by_upload_id st cred upload_id = false then
          (st, .error .AccessDenied)
        else
          match get_object_path m.bucket m.key with
          | none => (st, .error .InternalError)
          | some object_path =>
            let pfw := prepare_file_write st object_path
            let fw := pfw.2
            let parts := get_parts_by_upload_id pfw.1 upload_id
            let ares := appendParts fw.tmp_path pfw.1 parts
            match ares.2 with
            | some e => (fw.drop ares.1, .error e)
            | none =>
              let dres := fw.done ares.1
              let st3 := dres.1
              let fw1 := dres.2
              if pathExists st3 object_path = false then (fw1.drop st3, .error .InternalError)
              else
                match get_md5_sum cfg st3 m.bucket m.key with
                | .error e => (fw1.drop st3, .error e)
                | .ok md5_sum =>
                  let st4 := save_s3_item_detail st3 m.bucket m.key md5_sum (some m.metadata) []
                  let st5 := delete_multipart_upload_by_upload_id st4 upload_id
                  (fw1.drop st5,
                   .ok { bucket := some m.bucket, key := some m.key, e_tag := some md5_sum })

/-- The fields of AbortMultipartUploadInput consumed by the adapter. -/
structure AbortMultipartUploadInput where
  bucket : String
  key : String
  upload_id : String
deriving DecidableEq

/-- The part-file deletion loop of `S3::abort_multipart_upload`;
removing a missing file is the error of the try macro. -/
def removePartFiles : S3State → List MultipartUploadPart → S3State × Option S3Err
  | st, [] => (st, none)
  | st, p :: t =>
    if fileExists st p.data_location then removePartFiles (removeFile st p.data_location) t
    else (st, some .InternalError)

/-- `S3::abort_multipart_upload` (src/s3.rs): require the bucket path
to exist; parse the upload id; verify the access key; an upload with no
part rows is NoSuchUpload; delete every part file; delete the upload
row. -/
def abort_multipart_upload (cfg : HashCfg) (st : S3State) (input : AbortMultipartUploadInput)
    (cred : Option String) : S3State × Except S3Err Unit :=
  match get_bucket_path input.bucket with
  | none => (st, .error .InternalError)
  | some bucket_path =>
    if pathExists st bucket_path = false then (st, .error .NoSuchBucket)
    else
      match cfg.parse_uuid input.upload_id with
      | none => (st, .error .InvalidRequest)
      | some upload_id =>
        if verify_access_key_by_upload_id st cred upload_id = false then
          (st, .error .AccessDenied)
        else
          let parts := get_parts_by_upload_id st upload_id
          if parts.length = 0 then (st, .error .NoSuchUpload)
          else
            let rres := removePartFiles st parts
            match rres.2 with
            | some e => (rres.1, .error e)
            | none => (delete_multipart_upload_by_upload_id rres.1 upload_id, .ok ())

/-- `utils::bytes_stream`: re-emit the chunks of the underlying stream,
truncating each chunk to the remaining budget, which starts at
content_length; a stream error ends the output.  The input stream is
its (possibly over-long) list of items. -/
def bytes_stream {E : Type} : List (Except E Bytes) → Nat → List (Except E Bytes)
  | [], _ => []
  | .error e :: _, _ => [.error e]
  | .ok b :: t, remaining =>
    .ok (b.take remaining) :: bytes_stream t (remaining - (b.take remaining).length)

/-- Total number of bytes carried by the ok chunks of a stream. -/
def okLen {E : Type} : List (Except E Bytes) → Nat
  | [] => 0
  | .error _ :: t => okLen t
  | .ok b :: t => b.length + okLen t

/-! ## Shared helper lemmas on the file map -/

theorem getFile_dropKey_ne (fs : List (FsPath × Bytes)) (p q : FsPath) (h : q ≠ p) :
    getFile (dropKey fs p) q = getFile fs q := by
  induction fs with
  | nil => rfl
  | cons e t ih =>
    obtain ⟨k, v⟩ := e
    simp only [dropKey]
    by_cases hk : k = p
    · rw [if_pos hk, ih]
      show getFile t q = if k = q then some v else getFile t q
      rw [if_neg (fun h2 : k = q => h (h2 ▸ hk))]
    · rw [if_neg hk]
      show (if k = q then some v else getFile (dropKey t p) q) =
        if k = q then some v else getFile t q
      by_cases hq : k = q
      · rw [if_pos hq, if_pos hq]
      · rw [if_neg hq, if_neg hq, ih]

theorem getFile_dropKey_self (fs : List (FsPath × Bytes)) (p : FsPath) :
    getFile (dropKey fs p) p = none := by
  induction fs with
  | nil => rfl
  | cons e t ih =>
    obtain ⟨k, v⟩ := e
    simp only [dropKey]
    by_cases hk : k = p
    · rw [if_pos hk]
      exact ih
    · rw [if_neg hk]
      show (if k = p then some v else getFile (dropKey t p) p) = none
      rw [if_neg hk]
      exact ih

theorem getFile_putFile_self (fs : List (FsPath × Bytes)) (p : FsPath) (b : Bytes) :
    getFile (putFile fs p b) p = some b := by
  show (if p = p then some b else getFile (dropKey fs p) p) = some b
  rw [if_pos rfl]

theorem getFile_putFile_ne (fs : List (FsPath × Bytes)) (p q : FsPath) (b : Bytes) (h : q ≠ p) :
    getFile (putFile fs p b) q = getFile fs q := by
  show (if p = q then some b else getFile (dropKey fs p) q) = getFile fs q
  rw [if_neg (fun hpq : p = q => h hpq.symm)]
  exact getFile_dropKey_ne fs p q h

theorem getFile_delFile_ne (fs : List (FsPath × Bytes)) (p q : FsPath) (h : q ≠ p) :
    getFile (delFile fs p) q = getFile fs q :=
  getFile_dropKey_ne fs p q h

theorem getFile_delFile_self (fs : List (FsPath × Bytes)) (p : FsPath) :
    getFile (delFile fs p) p = none :=
  getFile_dropKey_self fs p

/-! ## Concrete fixtures used by witnesses and counterexamples -/

/-- A concrete choice of digest functions for evaluating the model:
constant digests and the identity UUID parser. -/
def testCfg : HashCfg :=
  { md5hex := fun _ => "tmd5", crc32 := fun _ => "tc32", crc32c := fun _ => "tc32c"
    sha1 := fun _ => "tsha1", sha256 := fun _ => "tsha256", parse_uuid := fun s => some s }

/-- The empty world. -/
def stEmpty : S3State :=
  { files := [], dirs := [], objects := [], uploads := [], parts := [], tmpCounter := 0 }

/-! ## C8 -/

/-- C8: for every input stream and every content_length n, the stream
returned by bytes_stream yields chunks whose total length never exceeds
n, however many bytes the underlying stream produces. -/
theorem bytes_stream_never_exceeds_content_length {E : Type}
    (chunks : List (Except E Bytes)) (n : Nat) :
    okLen (bytes_stream chunks n) ≤ n := by
  induction chunks generalizing n with
  | nil => simp [bytes_stream, okLen]
  | cons h t ih =>
    cases h with
    | error e => simp [bytes_stream, okLen]
    | ok b =>
      simp only [bytes_stream, okLen]
      have h1 : (b.take n).length ≤ n := by
        simp [List.length_take]
      have h2 := ih (n - (b.take n).length)
      omega

/-! ## C9 -/

/-- C9: modify_internal_info on the empty map followed by
from_internal_info returns a checksum equal to the input on all four
fields, absent fields mapping to absent keys and back to none. -/
theorem internal_info_roundtrip_identity (c : Checksum) :
    from_internal_info (modify_internal_info [] c) = c := by
  obtain ⟨c1, c2, c3, c4⟩ := c
  cases c1 <;> cases c2 <;> cases c3 <;> cases c4 <;>
    simp [modify_internal_info, from_internal_info, info_insert, info_get]

/-! ## C10 -/

/-- C10: a ListParts request whose upload id has zero part rows in the
catalog fails with NoSuchUpload (whatever the multipart_upload table
holds), rather than returning an empty parts list. -/
theorem list_parts_empty_no_such_upload (st : S3State) (input : ListPartsInput)
    (h : get_parts_by_upload_id st input.upload_id = []) :
    list_parts st input = (st, .error .NoSuchUpload) := by
  simp [list_parts, h]

/-- Witness for C10 on an initiated upload with no parts. -/
theorem list_parts_empty_no_such_upload_witness :
    list_parts
        { files := [], dirs := []
          objects := []
          uploads := [{ upload_id := "u0", bucket := "b", key := "k", metadata := []
                        access_key := "ak" }]
          parts := [], tmpCounter := 0 }
        { bucket := "b", key := "k", upload_id := "u0" } =
      ({ files := [], dirs := []
         objects := []
         uploads := [{ upload_id := "u0", bucket := "b", key := "k", metadata := []
                       access_key := "ak" }]
         parts := [], tmpCounter := 0 }, .error .NoSuchUpload) :=
  list_parts_empty_no_such_upload _ _ (by decide)

/-! ## C1 -/

/-- A PutObject request whose supplied sha256 checksum cannot match the
computed one. -/
def badDigestReq : PutObjectInput :=
  { bucket := "b", key := "k", body := some [7, 7], metadata := none, content_length := none
    checksum_crc32 := none, checksum_crc32c := none, checksum_sha1 := none
    checksum_sha256 := some "BAD" }

/-- C1: evaluating put_object at a mismatching client checksum shows
the source order of operations: FileWriter::done (the rename of the
temp file onto the final object path) runs before validate_checksums,
so the BadDigest failure leaves the object file committed at the final
path (and the temp name gone, consumed by the rename), while no catalog
row is written.  This contradicts the claim that no file is placed at
the final object path and that the temp file is discarded before any
rename. -/
theorem put_object_bad_digest_commits_file :
    (put_object testCfg stEmpty badDigestReq).2 = .error .BadDigest ∧
    getFile (put_object testCfg stEmpty badDigestReq).1.files ["b", "k"] = some [7, 7] ∧
    (put_object testCfg stEmpty badDigestReq).1.objects = [] := by
  decide

/-! ## C2 -/

/-- A world whose only entry is a directory at the destination path. -/
def dirDestState : S3State :=
  { files := [], dirs := [["b", "k"]], objects := [], uploads := [], parts := []
    tmpCounter := 0 }

/-- The state after acquiring the writer for the directory destination
and writing one chunk into its temp file. -/
def fwDirSt : S3State :=
  (prepare_file_write dirDestState ["b", "k"]).2.write
    (prepare_file_write dirDestState ["b", "k"]).1 [5]

/-- The writer acquired for the directory destination. -/
def fwDirW : FileWriter := (prepare_file_write dirDestState ["b", "k"]).2

/-- C2 counterexample: when the destination exists as a directory,
done() skips the rename but also clears clean_tmp, so Drop removes
nothing and the temp file .tmp.0.internal.part is still on disk after
the writer is finished and dropped — contradicting the claim that the
temp file is cleaned up. -/
theorem file_writer_dir_dest_tmp_remains_cex :
    getFile (FileWriter.drop (fwDirW.done fwDirSt).2 (fwDirW.done fwDirSt).1).files
        [".tmp.0.internal.part"] = some [5] ∧
    getFile (FileWriter.drop (fwDirW.done fwDirSt).2 (fwDirW.done fwDirSt).1).files
        ["b", "k"] = none := by
  decide

/-- C2 amended: when the destination exists as a directory at commit
time, the rename is skipped (the file map is untouched by done), but
the temp file is not cleaned up: done clears clean_tmp, so the drop of
the finished writer is a no-op and the .tmp.N.internal.part file
remains until a later startup sweep. -/
theorem fw_done_dir_skips_rename_no_cleanup (st : S3State) (fw : FileWriter)
    (h : isDir (createDirAll st fw.dest_path.dropLast) fw.dest_path = true) :
    (fw.done st).1.files = st.files ∧ (fw.done st).2.clean_tmp = false ∧
      FileWriter.drop (fw.done st).2 (fw.done st).1 = (fw.done st).1 := by
  have h1 : fw.done st =
      (createDirAll st fw.dest_path.dropLast, { fw with clean_tmp := false }) := by
    unfold FileWriter.done
    simp [h]
  rw [h1]
  refine ⟨rfl, rfl, ?_⟩
  unfold FileWriter.drop
  simp

/-- Witness for the C2 amended statement at the concrete directory
destination. -/
theorem fw_done_dir_skips_rename_no_cleanup_witness :
    (fwDirW.done fwDirSt).1.files = fwDirSt.files ∧ (fwDirW.done fwDirSt).2.clean_tmp = false ∧
      FileWriter.drop (fwDirW.done fwDirSt).2 (fwDirW.done fwDirSt).1 = (fwDirW.done fwDirSt).1 :=
  fw_done_dir_skips_rename_no_cleanup fwDirSt fwDirW (by decide)

/-! ## C3 -/

/-- A PutObject request whose key contains the substring "../" (and
stays inside the root after normalization). -/
def dotDotReq : PutObjectInput :=
  { bucket := "b", key := "a/../c", body := some [1], metadata := none, content_length := none
    checksum_crc32 := none, checksum_crc32c := none, checksum_sha1 := none
    checksum_sha256 := none }

/-- C3 counterexample: put_object performs no key validation; the key
"a/../c", which contains "../", is accepted — the operation succeeds,
an object file is created at the normalized path b/c, and a catalog row
is written for (b, "a/../c") — contradicting the claim that such keys
are rejected with a validation error and that nothing is created. -/
theorem put_object_accepts_dotdot_key_cex :
    (put_object testCfg stEmpty dotDotReq).2 =
      .ok { e_tag := some "tmd5", checksum_crc32 := none, checksum_crc32c := none
            checksum_sha1 := none, checksum_sha256 := none } ∧
    getFile (put_object testCfg stEmpty dotDotReq).1.files ["b", "c"] = some [1] ∧
    (get_s3_item_detail (put_object testCfg stEmpty dotDotReq).1 "b" "a/../c").isSome = true := by
  decide

/-- C3 amended: the only key-derived rejection in put_object is the
path resolution itself: when the joined bucket/key path escapes the
root (or the key is an absolute path), the operation fails and neither
a file nor a catalog row nor any other state change is made; empty
keys, over-long keys and keys containing "../", "./", "//" or control
characters that still resolve below the root are accepted. -/
theorem put_object_rejects_only_root_escape (cfg : HashCfg) (st : S3State)
    (input : PutObjectInput) (h : get_object_path input.bucket input.key = none) :
    (put_object cfg st input).1 = st ∧ (put_object cfg st input).2.isOk = false := by
  unfold put_object
  cases hb : input.body with
  | none => exact ⟨rfl, rfl⟩
  | some body =>
    by_cases hk : strEndsWithSlash input.key
    · simp only [hk, if_true]
      unfold handle_directory_creation
      by_cases hcl : clPositive input.content_length
      · simp [hcl, Except.isOk, Except.toBool]
      · simp [hcl, h, Except.isOk, Except.toBool]
    · simp [hk, h, Except.isOk, Except.toBool]

/-- Witness for the C3 amended statement: the key "../../x" climbs out
of the root, so the request is rejected and the state is unchanged. -/
theorem put_object_rejects_only_root_escape_witness :
    (put_object testCfg stEmpty
        { bucket := "b", key := "../../x", body := some [1], metadata := none
          content_length := none, checksum_crc32 := none, checksum_crc32c := none
          checksum_sha1 := none, checksum_sha256 := none }).1 = stEmpty ∧
    (put_object testCfg stEmpty
        { bucket := "b", key := "../../x", body := some [1], metadata := none
          content_length := none, checksum_crc32 := none, checksum_crc32c := none
          checksum_sha1 := none, checksum_sha256 := none }).2.isOk = false :=
  put_object_rejects_only_root_escape testCfg stEmpty _ (by decide)

/-! ## C6 -/

/-- A world holding one multipart upload with one stored part. -/
def onePartState : S3State :=
  { files := [([".upload_id-u1.part-1"], [9])], dirs := [], objects := []
    uploads := [{ upload_id := "u1", bucket := "b", key := "k", metadata := []
                  access_key := "ak" }]
    parts := [{ upload_id := "u1", part_number := 1, md5 := "m"
                data_location := [".upload_id-u1.part-1"] }]
    tmpCounter := 0 }

/-- A CompleteMultipartUpload request carrying a present but empty
parts list. -/
def emptyPartsReq : CompleteMultipartUploadInput :=
  { multipart_upload := some { parts := some [] }, upload_id := "u1" }

/-- C6 counterexample: the source only checks that the
multipart_upload field is present, not that its parts list is
non-empty; a request whose parts list is present and empty completes
successfully and mutates the catalog (the upload row is deleted) —
contradicting the claim that completion fails with InvalidPart unless
the request carries a non-empty parts list. -/
theorem complete_empty_parts_list_proceeds_cex :
    (complete_multipart_upload testCfg onePartState emptyPartsReq (some "ak")).2 =
      .ok { bucket := some "b", key := some "k", e_tag := some "tmd5" } ∧
    (complete_multipart_upload testCfg onePartState emptyPartsReq (some "ak")).1.uploads = [] ∧
    emptyPartsReq.multipart_upload = some { parts := some [] } := by
  decide

/-- C6 amended: CompleteMultipartUpload fails with InvalidPart exactly
when the multipart_upload field is absent, before any filesystem or
catalog mutation; a present multipart_upload — even with an empty or
absent parts list — is not rejected and completion proceeds. -/
theorem complete_missing_field_invalid_part (cfg : HashCfg) (st : S3State) (upload_id : String)
    (cred : Option String) :
    complete_multipart_upload cfg st { multipart_upload := none, upload_id := upload_id } cred =
      (st, .error .InvalidPart) := rfl

/-! ## C5 -/

/-- C5: any UploadPart, CompleteMultipartUpload or
AbortMultipartUpload request whose access key (missing credentials
counting as the empty string) differs from the access key recorded for
the upload at creation fails with AccessDenied and leaves the state —
in particular the part rows and object rows — entirely unchanged.  The
side hypotheses are the guards the source checks before the access-key
verification: a present body for UploadPart, a present
multipart_upload field for Complete, an existing bucket path for
Abort, and an upload id that parses as a UUID to the id of the
recorded upload. -/
theorem multipart_wrong_access_key_denied (cfg : HashCfg) (st : S3State)
    (uidStr upload_id : String) (u : MultipartUpload) (cred : Option String)
    (hparse : cfg.parse_uuid uidStr = some upload_id)
    (hrow : get_multipart_upload_by_upload_id st upload_id = some u)
    (hak : ¬ u.access_key = acc_of cred) :
    (∀ body pn, upload_part cfg st
        { body := some body, upload_id := uidStr, part_number := pn } cred =
      (st, .error .AccessDenied)) ∧
    (∀ mu, complete_multipart_upload cfg st
        { multipart_upload := some mu, upload_id := uidStr } cred =
      (st, .error .AccessDenied)) ∧
    (∀ bucket key bp, get_bucket_path bucket = some bp → pathExists st bp = true →
      abort_multipart_upload cfg st { bucket := bucket, key := key, upload_id := uidStr } cred =
        (st, .error .AccessDenied)) := by
  have hv : verify_access_key_by_upload_id st cred upload_id = false := by
    simp [verify_access_key_by_upload_id, get_access_key_by_upload_id, hrow, hak]
  refine ⟨?_, ?_, ?_⟩
  · intro body pn
    simp [upload_part, hparse, hv]
  · intro mu
    simp [complete_multipart_upload, hparse, hrow, hv]
  · intro bucket key bp hbp hex
    simp [abort_multipart_upload, hparse, hbp, hex, hv]

/-- A world with one upload bound to access key "ak" and an existing
bucket directory. -/
def boundUploadState : S3State :=
  { files := [], dirs := [["bk"]], objects := []
    uploads := [{ upload_id := "u5", bucket := "bk", key := "k", metadata := []
                  access_key := "ak" }]
    parts := [], tmpCounter := 0 }

/-- The upload row recorded in boundUploadState. -/
def boundUpload : MultipartUpload :=
  { upload_id := "u5", bucket := "bk", key := "k", metadata := [], access_key := "ak" }

/-- Witness for C5: all three operations with the wrong access key
"evil" are denied and the state is returned unchanged. -/
theorem multipart_wrong_access_key_denied_witness :
    upload_part testCfg boundUploadState
        { body := some [1], upload_id := "u5", part_number := 1 } (some "evil") =
      (boundUploadState, .error .AccessDenied) ∧
    complete_multipart_upload testCfg boundUploadState
        { multipart_upload := some { parts := some [{ e_tag := some "e", part_number := some 1 }] }
          upload_id := "u5" } (some "evil") =
      (boundUploadState, .error .AccessDenied) ∧
    abort_multipart_upload testCfg boundUploadState
        { bucket := "bk", key := "k", upload_id := "u5" } (some "evil") =
      (boundUploadState, .error .AccessDenied) :=
  ⟨(multipart_wrong_access_key_denied testCfg boundUploadState "u5" "u5" boundUpload
      (some "evil") rfl (by decide) (by decide)).1 [1] 1,
   (multipart_wrong_access_key_denied testCfg boundUploadState "u5" "u5" boundUpload
      (some "evil") rfl (by decide) (by decide)).2.1
     { parts := some [{ e_tag := some "e", part_number := some 1 }] },
   (multipart_wrong_access_key_denied testCfg boundUploadState "u5" "u5" boundUpload
      (some "evil") rfl (by decide) (by decide)).2.2 "bk" "k" ["bk"] (by decide) (by decide)⟩

/-! ## C7 -/

theorem isDir_iff_mem (st : S3State) (p : FsPath) : isDir st p = true ↔ p ∈ st.dirs := by
  simp [isDir]

theorem mem_addDirs_left (p : FsPath) (dirs : List FsPath) (q : FsPath) (h : q ∈ dirs) :
    q ∈ addDirs p dirs := by
  unfold addDirs
  exact List.mem_append_right _ h

theorem self_mem_initSegs (p : FsPath) (h : p ≠ []) : p ∈ initSegs p := by
  unfold initSegs
  have hlen : 0 < p.length := List.length_pos.mpr h
  refine List.mem_map.mpr ⟨p.length - 1, ?_, ?_⟩
  · exact List.mem_range.mpr (by omega)
  · have : p.length - 1 + 1 = p.length := by omega
    rw [this, List.take_length]

theorem self_mem_addDirs (p : FsPath) (h : p ≠ []) (dirs : List FsPath) :
    p ∈ addDirs p dirs := by
  unfold addDirs
  by_cases hd : p ∈ dirs
  · exact List.mem_append_right _ hd
  · refine List.mem_append_left _ (List.mem_filter.mpr ⟨self_mem_initSegs p h, by simp [hd]⟩)

/-- A PutObject request on a directory key with no body at all. -/
def dirPutNoBodyReq : PutObjectInput :=
  { bucket := "b", key := "d/", body := none, metadata := none, content_length := none
    checksum_crc32 := none, checksum_crc32c := none, checksum_sha1 := none
    checksum_sha256 := none }

/-- A PutObject request on a directory key with content-length 0 but a
client crc32 checksum that cannot match the computed one. -/
def dirPutBadCkReq : PutObjectInput :=
  { bucket := "b", key := "d/", body := some [], metadata := none, content_length := some 0
    checksum_crc32 := some "XX", checksum_crc32c := none, checksum_sha1 := none
    checksum_sha256 := none }

/-- C7 counterexample: two directory-key PutObject requests with
content-length 0 or absent that do not return success: one without a
body fails IncompleteBody before any directory is created, and one with
a mismatching client checksum fails BadDigest (after creating the
directory) — contradicting the claim that every directory-key put with
content-length 0 or absent succeeds. -/
theorem put_object_dir_key_cex :
    (put_object testCfg stEmpty dirPutNoBodyReq).2 = .error .IncompleteBody ∧
    (put_object testCfg stEmpty dirPutNoBodyReq).1 = stEmpty ∧
    (put_object testCfg stEmpty dirPutBadCkReq).2 = .error .BadDigest := by
  decide

/-- C7 amended: for every PutObject whose key ends with a slash and
which carries a body: with content-length > 0 the operation fails with
UnexpectedContent and changes nothing; with content-length 0 or absent
— provided the resolved object path is proper and any client-supplied
checksums match the computed ones — a directory is created recursively
at the resolved object path and the operation returns success. -/
theorem put_object_dir_key_amended (cfg : HashCfg) (st : S3State) (input : PutObjectInput)
    (b : Bytes) (hb : input.body = some b) (hk : strEndsWithSlash input.key = true) :
    (∀ l, input.content_length = some l → 0 < l →
      put_object cfg st input = (st, .error .UnexpectedContent)) ∧
    (clPositive input.content_length = false →
      ∀ p, get_object_path input.bucket input.key = some p → p ≠ [] →
      validate_checksums
          ((init_checksum_hasher input.checksum_crc32 input.checksum_crc32c input.checksum_sha1
            input.checksum_sha256).finalize cfg b)
          input.checksum_crc32 input.checksum_crc32c input.checksum_sha1
          input.checksum_sha256 = .ok () →
      isDir (put_object cfg st input).1 p = true ∧ (put_object cfg st input).2.isOk = true) := by
  constructor
  · intro l hcll hlpos
    have hclp : clPositive input.content_length = true := by
      rw [hcll]
      simp [clPositive, hlpos]
    simp [put_object, hb, hk, handle_directory_creation, hclp]
  · intro hcl p hp hne hcs
    have hdc : handle_directory_creation st input.content_length input.bucket input.key =
        .ok (createDirAll st p) := by
      unfold handle_directory_creation
      simp [hcl, hp]
    have hmem : p ∈ addDirs p st.dirs := self_mem_addDirs p hne st.dirs
    simp only [put_object, hb, hk, if_true, hdc, hp, hcs, prepare_file_write,
      FileWriter.write, FileWriter.done, FileWriter.drop, appendToFile, createDirAll,
      renameFile, save_s3_item_detail, removeFile]
    have hcond : p ∈ addDirs (List.dropLast p) (addDirs p st.dirs) :=
      mem_addDirs_left _ _ _ hmem
    constructor
    · simp only [isDir_iff_mem]
      rw [if_pos hcond]
      exact hcond
    · simp [Except.isOk, Except.toBool]

/-- A well-formed directory-key PutObject request: empty body,
content-length 0, no client checksums. -/
def dirPutOkReq : PutObjectInput :=
  { bucket := "b", key := "d/", body := some [3], metadata := none, content_length := some 0
    checksum_crc32 := none, checksum_crc32c := none, checksum_sha1 := none
    checksum_sha256 := none }

/-- Witness for the C7 amended statement: the directory b/d is created
and the operation reports success. -/
theorem put_object_dir_key_amended_witness :
    isDir (put_object testCfg stEmpty dirPutOkReq).1 ["b", "d"] = true ∧
    (put_object testCfg stEmpty dirPutOkReq).2.isOk = true :=
  (put_object_dir_key_amended testCfg stEmpty dirPutOkReq [3] rfl (by decide)).2
    (by decide) ["b", "d"] (by decide) (by decide) (by decide)

/-! ## C4 -/

/-- The concatenation of the stored part-file contents, in the order of
the given part list. -/
def partsJoin (st : S3State) (ps : List MultipartUploadPart) : Bytes :=
  (ps.map (fun p => (getFile st.files p.data_location).getD [])).flatten

theorem mem_addDirs_iff (p : FsPath) (dirs : List FsPath) (q : FsPath) :
    q ∈ addDirs p dirs ↔ q ∈ initSegs p ∨ q ∈ dirs := by
  unfold addDirs
  constructor
  · intro h
    rcases List.mem_append.mp h with h1 | h1
    · exact Or.inl (List.mem_filter.mp h1).1
    · exact Or.inr h1
  · intro h
    rcases h with h1 | h1
    · by_cases hd : q ∈ dirs
      · exact List.mem_append_right _ hd
      · exact List.mem_append_left _ (List.mem_filter.mpr ⟨h1, by simp [hd]⟩)
    · exact List.mem_append_right _ h1

theorem length_le_of_mem_initSegs (p q : FsPath) (h : q ∈ initSegs p) :
    q.length ≤ p.length := by
  unfold initSegs at h
  obtain ⟨i, _, rfl⟩ := List.mem_map.mp h
  rw [List.length_take]
  exact min_le_right _ _

theorem isDir_eq_false_iff (st : S3State) (p : FsPath) : isDir st p = false ↔ p ∉ st.dirs := by
  simp [isDir]

/-- Invariant of the part-concatenation loop: when every part file
exists, no part path collides with the temp path or with another part
path, and the temp file currently holds acc, the loop succeeds, leaves
the temp file holding acc followed by the parts in order, removes
exactly the part files, and touches nothing else. -/
theorem appendParts_ok (tmp : FsPath) (ps : List MultipartUploadPart) :
    ∀ (st : S3State) (acc : Bytes),
      getFile st.files tmp = some acc →
      (∀ p ∈ ps, p.data_location ≠ tmp) →
      (ps.map (fun p => p.data_location)).Pairwise (fun a b => a ≠ b) →
      (∀ p ∈ ps, (getFile st.files p.data_location).isSome = true) →
      (appendParts tmp st ps).2 = none ∧
      getFile (appendParts tmp st ps).1.files tmp = some (acc ++ partsJoin st ps) ∧
      (appendParts tmp st ps).1.dirs = st.dirs ∧
      (appendParts tmp st ps).1.objects = st.objects ∧
      (appendParts tmp st ps).1.uploads = st.uploads ∧
      (appendParts tmp st ps).1.parts = st.parts ∧
      (appendParts tmp st ps).1.tmpCounter = st.tmpCounter := by
  induction ps with
  | nil =>
    intro st acc hacc _ _ _
    simp [appendParts, partsJoin, hacc]
  | cons p t ih =>
    intro st acc hacc hne hpw hsome
    obtain ⟨c, hc⟩ := Option.isSome_iff_exists.mp (hsome p (List.mem_cons_self p t))
    have hptmp : p.data_location ≠ tmp := hne p (List.mem_cons_self p t)
    have hstep : appendParts tmp st (p :: t) =
        appendParts tmp (removeFile (appendToFile st tmp c) p.data_location) t := by
      simp [appendParts, hc]
    have htmp2 : getFile (removeFile (appendToFile st tmp c) p.data_location).files tmp =
        some (acc ++ c) := by
      show getFile (delFile (putFile st.files tmp ((getFile st.files tmp).getD [] ++ c))
        p.data_location) tmp = some (acc ++ c)
      rw [getFile_delFile_ne _ _ _ (Ne.symm hptmp), getFile_putFile_self, hacc]
      rfl
    have hlook : ∀ q ∈ t,
        getFile (removeFile (appendToFile st tmp c) p.data_location).files q.data_location =
          getFile st.files q.data_location := by
      intro q hq
      have hne1 : p.data_location ≠ q.data_location :=
        (List.pairwise_cons.mp hpw).1 q.data_location (List.mem_map_of_mem _ hq)
      have hne2 : q.data_location ≠ tmp := hne q (List.mem_cons_of_mem p hq)
      show getFile (delFile (putFile st.files tmp ((getFile st.files tmp).getD [] ++ c))
        p.data_location) q.data_location = _
      rw [getFile_delFile_ne _ _ _ (Ne.symm hne1), getFile_putFile_ne _ _ _ _ hne2]
    have hih := ih (removeFile (appendToFile st tmp c) p.data_location) (acc ++ c) htmp2
      (fun q hq => hne q (List.mem_cons_of_mem p hq))
      ((List.pairwise_cons.mp hpw).2)
      (fun q hq => by rw [hlook q hq]; exact hsome q (List.mem_cons_of_mem p hq))
    have hjoin : partsJoin (removeFile (appendToFile st tmp c) p.data_location) t =
        partsJoin st t := by
      unfold partsJoin
      congr 1
      refine List.map_congr_left ?_
      intro q hq
      rw [hlook q hq]
    have hjcons : partsJoin st (p :: t) = c ++ partsJoin st t := by
      simp [partsJoin, hc]
    obtain ⟨e1, e2, e3, e4, e5, e6, e7⟩ := hih
    rw [hstep]
    refine ⟨e1, ?_, e3, e4, e5, e6, e7⟩
    rw [e2, hjoin, hjcons, List.append_assoc]

/-- C4: for every CompleteMultipartUpload that goes through (the upload
exists and is owned by the caller, the object path resolves to a proper
path that is not a directory, and the recorded part files exist at
pairwise distinct locations that are not the stage file), the final
object file holds exactly the concatenation of the stored part files in
ascending part_number as ordered by the catalog, the returned ETag is
the MD5 digest of that concatenated file (plain MD5 of the body — not
the S3 multipart ETag format), and the request parts list mu is an
arbitrary presence signal: no hypothesis constrains its contents and
the result does not depend on them. -/
theorem complete_concatenates_parts_md5
    (cfg : HashCfg) (st : S3State) (mu : CompletedMultipartUpload)
    (uidStr upload_id : String) (cred : Option String) (m : MultipartUpload) (dest : FsPath)
    (hparse : cfg.parse_uuid uidStr = some upload_id)
    (hrow : get_multipart_upload_by_upload_id st upload_id = some m)
    (hak : m.access_key = acc_of cred)
    (hdest : get_object_path m.bucket m.key = some dest)
    (hdir : isDir st dest = false)
    (hne : dest ≠ [])
    (hfiles : ∀ p ∈ get_parts_by_upload_id st upload_id,
      (getFile st.files p.data_location).isSome = true)
    (htmp : ∀ p ∈ get_parts_by_upload_id st upload_id,
      p.data_location ≠ [tmpName st.tmpCounter])
    (hpw : ((get_parts_by_upload_id st upload_id).map (fun p => p.data_location)).Pairwise
      (fun a b => a ≠ b)) :
    (complete_multipart_upload cfg st { multipart_upload := some mu, upload_id := uidStr }
        cred).2 =
      .ok { bucket := some m.bucket, key := some m.key
            e_tag := some (cfg.md5hex (partsJoin st (get_parts_by_upload_id st upload_id))) } ∧
    getFile (complete_multipart_upload cfg st
        { multipart_upload := some mu, upload_id := uidStr } cred).1.files dest =
      some (partsJoin st (get_parts_by_upload_id st upload_id)) ∧
    ((get_parts_by_upload_id st upload_id).map (fun p => p.part_number)).Pairwise
      (fun a b => a ≤ b) := by
  have hsorted : ((get_parts_by_upload_id st upload_id).map (fun p => p.part_number)).Pairwise
      (fun a b => a ≤ b) := by
    have hs : List.Pairwise partLe
        (List.insertionSort partLe (st.parts.filter (fun q => q.upload_id == upload_id))) :=
      List.sorted_insertionSort partLe _
    exact hs.map (fun p : MultipartUploadPart => p.part_number) (fun a b h => h)
  have hv : verify_access_key_by_upload_id st cred upload_id = true := by
    simp [verify_access_key_by_upload_id, get_access_key_by_upload_id, hrow, hak]
  have hparts2 : get_parts_by_upload_id
      { st with files := putFile st.files [tmpName st.tmpCounter] []
                tmpCounter := st.tmpCounter + 1 } upload_id =
      get_parts_by_upload_id st upload_id := rfl
  obtain ⟨ha1, ha2, ha3, ha4, ha5, ha6, ha7⟩ :=
    appendParts_ok [tmpName st.tmpCounter] (get_parts_by_upload_id st upload_id)
      { st with files := putFile st.files [tmpName st.tmpCounter] []
                tmpCounter := st.tmpCounter + 1 } []
      (getFile_putFile_self _ _ _)
      htmp hpw
      (fun p hp => by
        show (getFile (putFile st.files [tmpName st.tmpCounter] []) p.data_location).isSome =
          true
        rw [getFile_putFile_ne _ _ _ _ (htmp p hp)]
        exact hfiles p hp)
  have hjoin1 : partsJoin
      { st with files := putFile st.files [tmpName st.tmpCounter] []
                tmpCounter := st.tmpCounter + 1 } (get_parts_by_upload_id st upload_id) =
      partsJoin st (get_parts_by_upload_id st upload_id) := by
    unfold partsJoin
    congr 1
    refine List.map_congr_left ?_
    intro q hq
    show (getFile (putFile st.files [tmpName st.tmpCounter] []) q.data_location).getD [] = _
    rw [getFile_putFile_ne _ _ _ _ (htmp q hq)]
  have hcontains : (addDirs (List.dropLast dest) st.dirs).contains dest = false := by
    have h1 : dest ∉ addDirs (List.dropLast dest) st.dirs := by
      intro hmem
      rcases (mem_addDirs_iff _ _ _).mp hmem with h2 | h2
      · have h3 := length_le_of_mem_initSegs _ _ h2
        have h4 : (List.dropLast dest).length = dest.length - 1 := List.length_dropLast dest
        have h5 : 0 < dest.length := List.length_pos.mpr hne
        omega
      · rw [isDir_eq_false_iff] at hdir
        exact hdir h2
    simpa using h1
  refine ⟨?_, ?_, hsorted⟩
  · simp only [complete_multipart_upload, hparse, hrow, hv, hdest, prepare_file_write,
      hparts2, ha1, ha2, ha3, hjoin1, FileWriter.done, FileWriter.drop, createDirAll, isDir,
      renameFile, get_md5_sum, save_s3_item_detail, delete_multipart_upload_by_upload_id,
      pathExists, fileExists, getFile_putFile_self, hcontains, List.nil_append,
      Option.isSome_some, Bool.or_true, Bool.false_or]
    simp [hcontains, getFile_putFile_self]
  · simp only [complete_multipart_upload, hparse, hrow, hv, hdest, prepare_file_write,
      hparts2, ha1, ha2, ha3, hjoin1, FileWriter.done, FileWriter.drop, createDirAll, isDir,
      renameFile, get_md5_sum, save_s3_item_detail, delete_multipart_upload_by_upload_id,
      pathExists, fileExists, getFile_putFile_self, hcontains, List.nil_append,
      Option.isSome_some, Bool.or_true, Bool.false_or]
    simp [hcontains, getFile_putFile_self]

/-- A world with one upload owning two stored parts, recorded in the
catalog out of numeric order. -/
def catalogPartsState : S3State :=
  { files := [([".p1"], [1]), ([".p2"], [2, 2])], dirs := []
    objects := []
    uploads := [{ upload_id := "u4", bucket := "b", key := "k", metadata := []
                  access_key := "ak" }]
    parts := [{ upload_id := "u4", part_number := 2, md5 := "m2", data_location := [".p2"] },
              { upload_id := "u4", part_number := 1, md5 := "m1", data_location := [".p1"] }]
    tmpCounter := 0 }

/-- Witness for C4: completing the two-part upload concatenates the
part files in ascending part_number and digests the result, with a
request parts list that is only a presence signal. -/
theorem complete_concatenates_parts_md5_witness :
    (complete_multipart_upload testCfg catalogPartsState
        { multipart_upload := some { parts := none }, upload_id := "u4" } (some "ak")).2 =
      .ok { bucket := some "b", key := some "k"
            e_tag := some (testCfg.md5hex (partsJoin catalogPartsState
              (get_parts_by_upload_id catalogPartsState "u4"))) } ∧
    getFile (complete_multipart_upload testCfg catalogPartsState
        { multipart_upload := some { parts := none }, upload_id := "u4" } (some "ak")).1.files
        ["b", "k"] =
      some (partsJoin catalogPartsState (get_parts_by_upload_id catalogPartsState "u4")) ∧
    ((get_parts_by_upload_id catalogPartsState "u4").map (fun p => p.part_number)).Pairwise
      (fun a b => a ≤ b) :=
  complete_concatenates_parts_md5 testCfg catalogPartsState { parts := none } "u4" "u4"
    (some "ak")
    { upload_id := "u4", bucket := "b", key := "k", metadata := [], access_key := "ak" }
    ["b", "k"] rfl (by decide) rfl (by decide) (by decide) (by decide) (by decide) (by decide)
    (by decide)
